import Mathlib

/-!
Shallow embedding of the trading bot's request-signing and order-submission
pipeline (`bot/validators.py`, `bot/client.py`, `bot/orders.py`), together
with theorems settling the specification's claims about it.
-/

namespace TradingBot

/-! ## Python float model

`validate_quantity` and friends call Python's `float()` and compare with
`<=`.  Python floats distinguish finite values, the two infinities and NaN;
NaN compares false under every ordering operator.  Finite values are
modelled exactly as rationals (the claims never depend on binary rounding).
-/

/-- A Python float: a finite value (modelled exactly as a rational), one of
the two infinities, or NaN. -/
inductive PyFloat where
  | finite (q : ℚ)
  | inf
  | negInf
  | nan
deriving DecidableEq

/-- Python's `<=` on floats: any comparison involving NaN is false. -/
def PyFloat.le : PyFloat → PyFloat → Bool
  | .nan, _ => false
  | _, .nan => false
  | .negInf, _ => true
  | _, .negInf => false
  | _, .inf => true
  | .inf, _ => false
  | .finite a, .finite b => a ≤ b

/-- Python's `<` on floats: any comparison involving NaN is false. -/
def PyFloat.lt : PyFloat → PyFloat → Bool
  | .nan, _ => false
  | _, .nan => false
  | .inf, _ => false
  | _, .inf => true
  | _, .negInf => false
  | .negInf, _ => true
  | .finite a, .finite b => a < b

/-- Digits of a decimal string read as a natural number. -/
def digitsToNat (ds : List Char) : Nat :=
  ds.foldl (fun a c => a * 10 + (c.toNat - 48)) 0

/-- Whitespace as `float()` strips it: space, tab, newline, carriage
return, vertical tab, form feed. -/
def pyWs (c : Char) : Bool :=
  c = ' ' || c = '\t' || c = '\n' || c = '\r' || c = Char.ofNat 11 || c = Char.ofNat 12

/-- Strip leading and trailing whitespace from a character list. -/
def pyStrip (cs : List Char) : List Char :=
  ((cs.dropWhile pyWs).reverse.dropWhile pyWs).reverse

/-- Parse an unsigned decimal mantissa `digits[.digits]` into its digit
value and the number of fraction digits; at least one digit must be
present, exactly as Python's `float()` demands. -/
def parseMantissa (cs : List Char) : Option (Nat × Nat) :=
  let ip := cs.takeWhile Char.isDigit
  let rest := cs.dropWhile Char.isDigit
  match rest with
  | [] => if ip.isEmpty then none else some (digitsToNat ip, 0)
  | '.' :: rest2 =>
      let fp := rest2.takeWhile Char.isDigit
      let rest3 := rest2.dropWhile Char.isDigit
      if rest3.isEmpty then
        if ip.isEmpty && fp.isEmpty then none
        else some (digitsToNat (ip ++ fp), fp.length)
      else none
  | _ => none

/-- Parse an optionally signed exponent, digits required. -/
def parseSignedInt (cs : List Char) : Option ℤ :=
  match cs with
  | '+' :: r => if r.isEmpty || !(r.all Char.isDigit) then none else some (digitsToNat r : ℤ)
  | '-' :: r => if r.isEmpty || !(r.all Char.isDigit) then none else some (-(digitsToNat r : ℤ))
  | r => if r.isEmpty || !(r.all Char.isDigit) then none else some (digitsToNat r : ℤ)

/-- The rational value `±n0 * 10^(ex - scale)` of a parsed decimal with
digit value `n0`, `scale` fraction digits and exponent `ex`. -/
def decToRat (sgn : Bool) (n0 scale : Nat) (ex : ℤ) : ℚ :=
  let e : ℤ := ex - (scale : ℤ)
  let num : ℤ := if sgn then -(n0 : ℤ) else (n0 : ℤ)
  if 0 ≤ e then mkRat (num * ((10 : ℤ) ^ e.toNat)) 1
  else mkRat num ((10 : ℕ) ^ (-e).toNat)

/-- Parse a decimal literal with an optional `e`/`E` exponent part, under a
leading sign. -/
def parseDecimalChars (sgn : Bool) (cs : List Char) : Option ℚ :=
  match cs.findIdx? (fun c => c = 'e' || c = 'E') with
  | none => (parseMantissa cs).map (fun md => decToRat sgn md.1 md.2 0)
  | some i =>
      match parseMantissa (cs.take i), parseSignedInt (cs.drop (i + 1)) with
      | some md, some ex => some (decToRat sgn md.1 md.2 ex)
      | _, _ => none

/-- Python's `float()` on a string: strip surrounding whitespace, accept an
optional sign, then `inf`/`infinity`/`nan` (case-insensitively) or a decimal
literal; `none` models the `ValueError` raised on anything else. -/
def pyFloat? (s : String) : Option PyFloat :=
  let t := pyStrip s.data
  let sgn : Bool := match t with
    | '-' :: _ => true
    | _ => false
  let rest : List Char := match t with
    | '+' :: r => r
    | '-' :: r => r
    | r => r
  let lower := rest.map Char.toLower
  if lower = "inf".data || lower = "infinity".data then
    some (if sgn then .negInf else .inf)
  else if lower = "nan".data then some .nan
  else
    match parseDecimalChars sgn rest with
    | some q => some (.finite q)
    | none => none

/-! ## Validators (`bot/validators.py`) -/

/-- The payload of a raised `ValidationError`. -/
structure ValidationError where
  msg : String
deriving DecidableEq

/-- `validate_quantity`: `float()` the input (failure raises), then reject
`qty <= 0`; otherwise return the parsed quantity. -/
def validate_quantity (quantity : String) : Except ValidationError PyFloat :=
  match pyFloat? quantity with
  | none => .error ⟨"Invalid quantity: must be a positive number."⟩
  | some qty =>
      if qty.le (.finite 0) then .error ⟨"Quantity must be greater than 0."⟩
      else .ok qty

/-- `validate_price`: for `LIMIT` and `STOP_MARKET` a price is required,
must parse and must be `> 0`; for every other order type the result is
`None` without looking at the input. -/
def validate_price (price : Option String) (order_type : String) :
    Except ValidationError (Option PyFloat) :=
  if order_type = "LIMIT" || order_type = "STOP_MARKET" then
    match price with
    | none => .error ⟨"Price is required for this order type."⟩
    | some raw =>
        match pyFloat? raw with
        | none => .error ⟨"Invalid price: must be a positive number."⟩
        | some p =>
            if p.le (.finite 0) then .error ⟨"Price must be greater than 0."⟩
            else .ok (some p)
  else .ok none

/-- `validate_stop_price`: required, parsed and `> 0` for `STOP_MARKET`;
`None` for every other order type without looking at the input. -/
def validate_stop_price (stop_price : Option String) (order_type : String) :
    Except ValidationError (Option PyFloat) :=
  if order_type = "STOP_MARKET" then
    match stop_price with
    | none => .error ⟨"Stop price is required for STOP_MARKET orders."⟩
    | some raw =>
        match pyFloat? raw with
        | none => .error ⟨"Invalid stop price: must be a positive number."⟩
        | some sp =>
            if sp.le (.finite 0) then .error ⟨"Stop price must be greater than 0."⟩
            else .ok (some sp)
  else .ok none

/-! ## Python dicts as insertion-ordered association lists

Python dicts preserve insertion order; assignment `d[k] = v` updates the
value in place when the key exists and appends a new entry otherwise.
-/

/-- Python dict assignment `d[k] = v` on an insertion-ordered association
list: replace the value at the key's existing position, else append. -/
def dinsert {α : Type} (k : String) (v : α) : List (String × α) → List (String × α)
  | [] => [(k, v)]
  | (k', v') :: rest => if k' = k then (k, v) :: rest else (k', v') :: dinsert k v rest

/-- Python dict lookup `d[k]` / `k in d` on an association list. -/
def dlookup {α : Type} (k : String) : List (String × α) → Option α
  | [] => none
  | (k', v) :: rest => if k' = k then some v else dlookup k rest

/-- The keys of a dict, in insertion order. -/
def dkeys {α : Type} (d : List (String × α)) : List String :=
  d.map Prod.fst

/-! ## JSON values and the transport layer (`bot/client.py`) -/

/-- A decoded JSON value.  Numbers are modelled as integers (the error codes
and ids the transport inspects are integral). -/
inductive Json where
  | null
  | bool (b : Bool)
  | num (n : ℤ)
  | str (s : String)
  | arr (xs : List Json)
  | obj (kvs : List (String × Json))

/-- `isinstance(data, dict) and key in data` followed by `data[key]`:
lookup inside an object, `none` for non-objects. -/
def Json.objGet (j : Json) (k : String) : Option Json :=
  match j with
  | .obj kvs => dlookup k kvs
  | _ => none

/-- Python's `value == 200` on a decoded JSON value: true only for the
number 200 (a string `"200"` or a boolean is not equal to an int). -/
def jsonEq200 (j : Json) : Bool :=
  match j with
  | .num n => n = 200
  | _ => false

/-- The payload of a raised `BinanceAPIError(code, message)`; both fields
come straight from the decoded body, so they are JSON values. -/
structure BinanceAPIError where
  code : Json
  message : Json

/-- The first `n` characters of a string — Python's `text[:n]`. -/
def takeChars (n : Nat) (s : String) : String :=
  ⟨s.data.take n⟩

/-- The post-decode classification in `BinanceClient._request`: a dict body
with a `code` entry different from 200 raises `BinanceAPIError(code,
data.get("msg", "Unknown error"))`; every other body is returned as the
result. -/
def handleBody (data : Json) : Except BinanceAPIError Json :=
  match data.objGet "code" with
  | some c =>
      if jsonEq200 c then .ok data
      else .error ⟨c, (data.objGet "msg").getD (.str "Unknown error")⟩
  | none => .ok data

/-- The decode stage of `BinanceClient._request`: `response.json()` either
yields a value (handled by `handleBody`) or fails, in which case
`BinanceAPIError(-1, "Non-JSON response: " + text[:200])` is raised. -/
def decodeStage (text : String) (parsed : Option Json) : Except BinanceAPIError Json :=
  match parsed with
  | none => .error ⟨.num (-1), .str ("Non-JSON response: " ++ takeChars 200 text)⟩
  | some data => handleBody data

/-- The spec's phrase "the body contains a `code` field whose value is not
200", as a predicate on decoded bodies. -/
def bodyHasErrCode (data : Json) : Bool :=
  match data.objGet "code" with
  | some c => !(jsonEq200 c)
  | none => false

/-- Restatement of the spec's transport classification in the spec's own
words, for comparison with `handleBody`: error exactly when the body
contains a `code` field whose value is not 200, with the message defaulted
from `msg`. -/
def specBodyOutcome (data : Json) : Except BinanceAPIError Json :=
  if bodyHasErrCode data then
    .error ⟨(data.objGet "code").getD .null, (data.objGet "msg").getD (.str "Unknown error")⟩
  else .ok data

/-! ## Order service (`bot/orders.py`) -/

/-- The errors `orders.place_order` catches and re-raises: the API error,
the two network errors, and the catch-all for unexpected exceptions. -/
inductive OrderError where
  | api (e : BinanceAPIError)
  | conn (msg : String)
  | timeout (msg : String)
  | unexpected (msg : String)

/-- The body of each `except` clause in `orders.place_order`: log, print,
then bare `raise` — the exception leaves unchanged in type and content. -/
def reraise : OrderError → OrderError
  | .api e => .api e
  | .conn m => .conn m
  | .timeout m => .timeout m
  | .unexpected m => .unexpected m

/-- `response.get("status", "")`. -/
def statusOf (response : List (String × Json)) : Json :=
  (dlookup "status" response).getD (.str "")

/-- `status in ("FILLED", "NEW", "PARTIALLY_FILLED")`. -/
def isSuccessStatus (s : Json) : Bool :=
  match s with
  | .str t => t = "FILLED" || t = "NEW" || t = "PARTIALLY_FILLED"
  | _ => false

/-- The outcome `orders.place_order` reports for a response: the success
print/log, or the unknown-status warning. -/
inductive StatusClass where
  | success
  | unknown
deriving DecidableEq

/-- Status classification in `orders.place_order`. -/
def classifyStatus (response : List (String × Json)) : StatusClass :=
  if isSuccessStatus (statusOf response) then .success else .unknown

/-- `orders.place_order` downstream of the client call, as a function of
the transport's outcome: an exception is re-raised unchanged; a response
dict is classified and returned. -/
def ordersPlaceOrder (transport : Except OrderError (List (String × Json))) :
    Except OrderError (List (String × Json) × StatusClass) :=
  match transport with
  | .error e => .error (reraise e)
  | .ok response => .ok (response, classifyStatus response)

/-! ## Client parameter assembly (`BinanceClient.place_order`) -/

/-- A value stored in the request-parameter dict: the string fields, the
numeric fields, or Python's `None` (the unconditional `params["price"] =
price` assignment can store `None`). -/
inductive PVal where
  | str (s : String)
  | num (f : PyFloat)
  | pynone
deriving DecidableEq

/-- An optional float as the parameter value Python would store. -/
def pvalOfOpt : Option PyFloat → PVal
  | some f => .num f
  | none => .pynone

/-- The parameter dict built by `BinanceClient.place_order`: the base
entries `symbol`, `side`, `type`, `quantity`; then `price` and
`timeInForce` added when the order type is `LIMIT`, and `stopPrice` added
when it is `STOP_MARKET`. -/
def buildOrderParams (symbol side order_type : String) (quantity : PyFloat)
    (price stop_price : Option PyFloat) (time_in_force : String) :
    List (String × PVal) :=
  let params : List (String × PVal) :=
    [("symbol", .str symbol), ("side", .str side),
     ("type", .str order_type), ("quantity", .num quantity)]
  let params :=
    if order_type = "LIMIT" then
      dinsert "timeInForce" (.str time_in_force) (dinsert "price" (pvalOfOpt price) params)
    else params
  let params :=
    if order_type = "STOP_MARKET" then
      dinsert "stopPrice" (pvalOfOpt stop_price) params
    else params
  params

/-! ## SHA-256, HMAC and URL encoding (the signer's building blocks)

`BinanceClient._sign` calls `hmac.new(secret, query_string, hashlib.sha256)
.hexdigest()` over `urllib.parse.urlencode(params)`.  These library
functions are embedded here in full: SHA-256 per FIPS 180-4 over byte
lists (bytes and 32-bit words are naturals reduced mod 2^8 / 2^32), HMAC
per RFC 2104, and `urlencode`'s `quote_plus` percent-encoding over UTF-8
bytes.
-/

/-- Truncated 32-bit addition. -/
def add32 (a b : Nat) : Nat := (a + b) % 4294967296

/-- Right rotation of a 32-bit word by `n` places. -/
def rotr32 (n x : Nat) : Nat :=
  (x / 2 ^ n + x % 2 ^ n * 2 ^ (32 - n)) % 4294967296

/-- Logical right shift. -/
def shr32 (n x : Nat) : Nat := x / 2 ^ n

/-- Bitwise complement within 32 bits. -/
def not32 (x : Nat) : Nat := Nat.xor x 4294967295

/-- SHA-256 `Ch`. -/
def shaCh (x y z : Nat) : Nat := Nat.xor (Nat.land x y) (Nat.land (not32 x) z)

/-- SHA-256 `Maj`. -/
def shaMaj (x y z : Nat) : Nat :=
  Nat.xor (Nat.land x y) (Nat.xor (Nat.land x z) (Nat.land y z))

/-- SHA-256 big sigma 0. -/
def bsig0 (x : Nat) : Nat := Nat.xor (rotr32 2 x) (Nat.xor (rotr32 13 x) (rotr32 22 x))

/-- SHA-256 big sigma 1. -/
def bsig1 (x : Nat) : Nat := Nat.xor (rotr32 6 x) (Nat.xor (rotr32 11 x) (rotr32 25 x))

/-- SHA-256 small sigma 0. -/
def ssig0 (x : Nat) : Nat := Nat.xor (rotr32 7 x) (Nat.xor (rotr32 18 x) (shr32 3 x))

/-- SHA-256 small sigma 1. -/
def ssig1 (x : Nat) : Nat := Nat.xor (rotr32 17 x) (Nat.xor (rotr32 19 x) (shr32 10 x))

/-- The 64 SHA-256 round constants (FIPS 180-4 section 4.2.2), written in
decimal. -/
def shaK : List Nat :=
  [1116352408, 1899447441, 3049323471, 3921009573, 961987163, 1508970993,
   2453635748, 2870763221, 3624381080, 310598401, 607225278, 1426881987,
   1925078388, 2162078206, 2614888103, 3248222580, 3835390401, 4022224774,
   264347078, 604807628, 770255983, 1249150122, 1555081692, 1996064986,
   2554220882, 2821834349, 2952996808, 3210313671, 3336571891, 3584528711,
   113926993, 338241895, 666307205, 773529912, 1294757372, 1396182291,
   1695183700, 1986661051, 2177026350, 2456956037, 2730485921, 2820302411,
   3259730800, 3345764771, 3516065817, 3600352804, 4094571909, 275423344,
   430227734, 506948616, 659060556, 883997877, 958139571, 1322822218,
   1537002063, 1747873779, 1955562222, 2024104815, 2227730452, 2361852424,
   2428436474, 2756734187, 3204031479, 3329325298]

/-- The SHA-256 initial hash value (FIPS 180-4 section 5.3.3), written in
decimal. -/
def shaH0 : List Nat :=
  [1779033703, 3144134277, 1013904242, 2773480762,
   1359893119, 2600822924, 528734635, 1541459225]

/-- A natural as `n` bytes, big-endian. -/
def toBytesBE (n x : Nat) : List Nat :=
  (List.range n).map (fun i => x / 2 ^ (8 * (n - 1 - i)) % 256)

/-- A big-endian byte list as a natural. -/
def bytesBEToNat (bs : List Nat) : Nat :=
  bs.foldl (fun a b => a * 256 + b) 0

/-- SHA-256 padding: append `0x80`, zeros to 56 mod 64, then the bit length
as 8 big-endian bytes. -/
def shaPad (msg : List Nat) : List Nat :=
  let padZeros := (55 + 64 - msg.length % 64) % 64
  msg ++ [0x80] ++ List.replicate padZeros 0 ++ toBytesBE 8 (8 * msg.length)

/-- The 16 big-endian 32-bit words of a 64-byte block. -/
def wordsOfBlock (block : List Nat) : List Nat :=
  (List.range 16).map (fun i => bytesBEToNat ((block.drop (4 * i)).take 4))

/-- The 64-word SHA-256 message schedule of a block. -/
def shaSchedule (block : List Nat) : List Nat :=
  (List.range 48).foldl
    (fun w j =>
      w ++ [add32 (add32 (ssig1 (w.getD (j + 14) 0)) (w.getD (j + 9) 0))
              (add32 (ssig0 (w.getD (j + 1) 0)) (w.getD j 0))])
    (wordsOfBlock block)

/-- The 64 SHA-256 rounds on the working variables. -/
def shaRounds (H w : List Nat) : List Nat :=
  (List.range 64).foldl
    (fun s i =>
      let a := s.getD 0 0
      let b := s.getD 1 0
      let c := s.getD 2 0
      let d := s.getD 3 0
      let e := s.getD 4 0
      let f := s.getD 5 0
      let g := s.getD 6 0
      let h := s.getD 7 0
      let t1 := add32 h (add32 (bsig1 e)
        (add32 (shaCh e f g) (add32 (shaK.getD i 0) (w.getD i 0))))
      let t2 := add32 (bsig0 a) (shaMaj a b c)
      [add32 t1 t2, a, b, c, add32 d t1, e, f, g])
    H

/-- One SHA-256 compression step. -/
def shaCompress (H block : List Nat) : List Nat :=
  List.zipWith add32 H (shaRounds H (shaSchedule block))

/-- SHA-256 of a byte list, as the 32 digest bytes. -/
def sha256 (msg : List Nat) : List Nat :=
  let padded := shaPad msg
  let nBlocks := padded.length / 64
  let final := (List.range nBlocks).foldl
    (fun H i => shaCompress H ((padded.drop (64 * i)).take 64)) shaH0
  final.foldr (fun h acc => toBytesBE 4 h ++ acc) []

/-- HMAC-SHA256 (RFC 2104): hash long keys, zero-pad to the 64-byte block,
then the nested inner/outer hashes with the `0x36`/`0x5c` pads. -/
def hmacSha256 (key msg : List Nat) : List Nat :=
  let k0 := if 64 < key.length then sha256 key else key
  let k := k0 ++ List.replicate (64 - k0.length) 0
  let ipad := k.map (fun b => Nat.xor b 0x36)
  let opad := k.map (fun b => Nat.xor b 0x5c)
  sha256 (opad ++ sha256 (ipad ++ msg))

/-- A half-byte as a lowercase hex character. -/
def hexDigit (n : Nat) : Char :=
  if n < 10 then Char.ofNat (48 + n) else Char.ofNat (87 + n)

/-- A byte list as its lowercase hex string — Python's `.hexdigest()`. -/
def bytesToHex (bs : List Nat) : String :=
  ⟨bs.foldr (fun b acc => hexDigit (b / 16) :: hexDigit (b % 16) :: acc) []⟩

/-- The UTF-8 bytes of one character. -/
def utf8Char (c : Char) : List Nat :=
  let n := c.toNat
  if n < 0x80 then [n]
  else if n < 0x800 then [0xc0 + n / 64, 0x80 + n % 64]
  else if n < 0x10000 then [0xe0 + n / 4096, 0x80 + n / 64 % 64, 0x80 + n % 64]
  else [0xf0 + n / 262144, 0x80 + n / 4096 % 64, 0x80 + n / 64 % 64, 0x80 + n % 64]

/-- The UTF-8 bytes of a string — Python's `.encode("utf-8")`. -/
def utf8Bytes (s : String) : List Nat :=
  s.data.foldr (fun c acc => utf8Char c ++ acc) []

/-- A half-byte as an uppercase hex character, as `quote` emits. -/
def hexDigitUpper (n : Nat) : Char :=
  if n < 10 then Char.ofNat (48 + n) else Char.ofNat (55 + n)

/-- The bytes `quote_plus` leaves unescaped: ASCII letters, digits and
`_.-~`. -/
def urlSafeByte (b : Nat) : Bool :=
  (65 ≤ b && b ≤ 90) || (97 ≤ b && b ≤ 122) || (48 ≤ b && b ≤ 57) ||
  b = 95 || b = 46 || b = 45 || b = 126

/-- `urllib.parse.quote_plus`: UTF-8 encode, keep safe bytes, turn spaces
into `+`, percent-encode the rest with uppercase hex. -/
def quotePlus (s : String) : String :=
  ⟨(utf8Bytes s).foldr
    (fun b acc =>
      if urlSafeByte b then Char.ofNat b :: acc
      else if b = 32 then '+' :: acc
      else '%' :: hexDigitUpper (b / 16) :: hexDigitUpper (b % 16) :: acc)
    []⟩

/-- `urllib.parse.urlencode` over an insertion-ordered parameter dict whose
values are already strings: `key=value` pairs quoted with `quote_plus` and
joined by `&`, in insertion order. -/
def urlencode (params : List (String × String)) : String :=
  String.intercalate "&" (params.map (fun kv => quotePlus kv.1 ++ "=" ++ quotePlus kv.2))

/-! ## The signer (`BinanceClient._sign`) -/

/-- The observable result of calling `_sign`: the returned dict and the
contents of the caller's dict object after the call.  The Python function
assigns into the dict it was given and returns that same object, so the two
components are built from one shared value. -/
structure SignResult where
  ret : List (String × String)
  callerParams : List (String × String)

/-- `BinanceClient._sign`: assign `params["timestamp"]`, urlencode the dict,
HMAC-SHA256 it with the secret, assign `params["signature"]`, return
`params`.  `now_ms` stands for `int(time.time() * 1000)`; parameter values
are modelled by the string renderings `urlencode` sends. -/
def sign (api_secret : String) (now_ms : Nat) (params : List (String × String)) :
    SignResult :=
  let p1 := dinsert "timestamp" (toString now_ms) params
  let query_string := urlencode p1
  let signature := bytesToHex (hmacSha256 (utf8Bytes api_secret) (utf8Bytes query_string))
  let p2 := dinsert "signature" signature p1
  { ret := p2, callerParams := p2 }

/-- Decidable equality for `Except`, so concrete validator runs can be
checked by `decide`. -/
instance instDecEqExcept {ε α : Type} [DecidableEq ε] [DecidableEq α] :
    DecidableEq (Except ε α) := fun x y =>
  match x, y with
  | .ok a, .ok b =>
      if h : a = b then .isTrue (by rw [h])
      else .isFalse (fun hh => h (Except.ok.inj hh))
  | .error a, .error b =>
      if h : a = b then .isTrue (by rw [h])
      else .isFalse (fun hh => h (Except.error.inj hh))
  | .ok _, .error _ => .isFalse (fun hh => Except.noConfusion hh)
  | .error _, .ok _ => .isFalse (fun hh => Except.noConfusion hh)

/-! ## Helper lemmas -/

/-- Looking up a key right after assigning it finds the assigned value,
whether the assignment replaced an entry or appended one. -/
theorem dlookup_dinsert {α : Type} (k : String) (v : α) (l : List (String × α)) :
    dlookup k (dinsert k v l) = some v := by
  induction l with
  | nil => simp [dinsert, dlookup]
  | cons kv rest ih =>
      rcases kv with ⟨k', v'⟩
      by_cases h : k' = k
      · simp [dinsert, dlookup, h]
      · simp [dinsert, dlookup, h, ih]

/-! ## Claim theorems -/

/-- C6: for `orderType = MARKET`, `validate_price` and `validate_stop_price`
succeed with an absent result for every raw input, malformed or negative
included — a supplied price is not-applicable, never an error. -/
theorem c6_market_price_absent (price stop_price : Option String) :
    validate_price price "MARKET" = .ok none ∧
    validate_stop_price stop_price "MARKET" = .ok none :=
  ⟨rfl, rfl⟩

/-- C9: `validate_quantity` rejects `"0"`, `"-1"` and `"abc"`, and accepts
`"0.001"` with the numeric value 0.001. -/
theorem c9_quantity_examples :
    (validate_quantity "0").isOk = false ∧
    (validate_quantity "-1").isOk = false ∧
    (validate_quantity "abc").isOk = false ∧
    validate_quantity "0.001" = .ok (.finite (mkRat 1 1000)) ∧
    (mkRat 1 1000 : ℚ) = 0.001 :=
  ⟨by decide, by decide, by decide, by decide, by rw [Rat.mkRat_eq_div]; norm_num⟩

/-- C10: `validate_quantity` accepts the non-finite numeric strings `"inf"`
and `"nan"` — the float parse succeeds and the `qty <= 0` test does not
fire (NaN is neither `<= 0` nor `> 0`), so a non-finite quantity is
returned; there is no finiteness check. -/
theorem c10_nonfinite_quantity :
    validate_quantity "inf" = .ok .inf ∧
    validate_quantity "nan" = .ok .nan ∧
    PyFloat.le .nan (.finite 0) = false ∧
    PyFloat.lt (.finite 0) .nan = false :=
  ⟨by decide, by decide, rfl, rfl⟩

/-- C4: the transport's post-decode handling equals the spec's
classification — it raises `ApiError{code, msg-or-default}` exactly when
the body carries a `code` field different from 200, and returns every other
decoded body unchanged. -/
theorem c4_transport_classification (data : Json) :
    handleBody data = specBodyOutcome data := by
  unfold handleBody specBodyOutcome bodyHasErrCode
  rcases h : data.objGet "code" with _ | c
  · rfl
  · show (if jsonEq200 c = true then Except.ok data
        else Except.error
          (BinanceAPIError.mk c ((data.objGet "msg").getD (Json.str "Unknown error")))) =
      if (!jsonEq200 c) = true then
        Except.error (BinanceAPIError.mk ((some c).getD Json.null)
          ((data.objGet "msg").getD (Json.str "Unknown error")))
      else Except.ok data
    cases hc : jsonEq200 c <;> rfl

/-- C5: a body that fails JSON decoding is never returned as success: the
transport raises `ApiError` with sentinel code -1 and a message holding at
most the first 200 characters of the raw body. -/
theorem c5_non_json_error (text : String) :
    decodeStage text none =
      .error ⟨.num (-1), .str ("Non-JSON response: " ++ takeChars 200 text)⟩ ∧
    (takeChars 200 text).length ≤ 200 ∧
    (decodeStage text none).isOk = false := by
  refine ⟨rfl, ?_, rfl⟩
  show (text.data.take 200).length ≤ 200
  have h := List.length_take 200 text.data
  omega

/-- C7: for every response dict, `place_order` returns the dict with a
classification and raises nothing; the classification is success exactly
for status `NEW`, `PARTIALLY_FILLED` or `FILLED`, otherwise unknown. -/
theorem c7_status_classification (response : List (String × Json)) :
    ordersPlaceOrder (.ok response) = .ok (response, classifyStatus response) ∧
    (classifyStatus response = .success ↔
      (statusOf response = .str "NEW" ∨ statusOf response = .str "PARTIALLY_FILLED" ∨
       statusOf response = .str "FILLED")) := by
  refine ⟨rfl, ?_⟩
  rcases hs : statusOf response with _ | b | n | t | xs | kvs
  case str =>
    by_cases hf : t = "FILLED" <;> by_cases hn : t = "NEW" <;>
      by_cases hp : t = "PARTIALLY_FILLED" <;>
      simp [classifyStatus, isSuccessStatus, hs, hf, hn, hp]
  all_goals simp [classifyStatus, isSuccessStatus, hs]

/-- C8: every error the transport raises during order submission is
re-raised by `place_order` unchanged in type and content — never swallowed
and never turned into a success result. -/
theorem c8_error_propagation (e : OrderError) :
    ordersPlaceOrder (.error e) = .error e := by
  cases e <;> rfl

/-- C3: the signature entry the signer stores is the lowercase hex
HMAC-SHA256, keyed by the secret, of the URL-query encoding of the
parameters in insertion order with the injected timestamp included and the
signature entry itself excluded (it is assigned only after the digest). -/
theorem c3_signature_value (api_secret : String) (now_ms : Nat)
    (params : List (String × String)) :
    dlookup "signature" (sign api_secret now_ms params).ret =
      some (bytesToHex (hmacSha256 (utf8Bytes api_secret)
        (utf8Bytes (urlencode (dinsert "timestamp" (toString now_ms) params))))) :=
  dlookup_dinsert "signature" _ _

/-- C2 counterexample: the claim that the caller's mapping is left
unchanged is false — after signing `{"symbol": "BTCUSDT"}` the caller's
dict has gained the timestamp and signature entries. -/
theorem c2_sign_mutates_caller :
    (sign "secret" 1700000000000 [("symbol", "BTCUSDT")]).callerParams ≠
      [("symbol", "BTCUSDT")] := by
  intro h
  exact absurd (congrArg List.length h) (by decide)

/-- C2 amended: `_sign` writes the timestamp and signature entries into the
mapping it was given and returns that same mapping — after the call the
caller's dict equals the returned signed dict. -/
theorem c2_sign_in_place (api_secret : String) (now_ms : Nat)
    (params : List (String × String)) :
    (sign api_secret now_ms params).callerParams = (sign api_secret now_ms params).ret ∧
    (sign api_secret now_ms params).callerParams =
      dinsert "signature"
        (bytesToHex (hmacSha256 (utf8Bytes api_secret)
          (utf8Bytes (urlencode (dinsert "timestamp" (toString now_ms) params)))))
        (dinsert "timestamp" (toString now_ms) params) :=
  ⟨rfl, rfl⟩

/-- C1: at `orderType = STOP_MARKET` the Validator produces the price as
present (validating `"10"` to 10) while the client's parameter dict for the
same order omits the `price` key entirely (it is added only for `LIMIT`) —
the transmitted-parameter pattern does not mirror the Validator's presence
invariant. -/
theorem c1_presence_mismatch :
    validate_price (some "10") "STOP_MARKET" = .ok (some (.finite (mkRat 10 1))) ∧
    "price" ∉ dkeys (buildOrderParams "BTCUSDT" "BUY" "STOP_MARKET" (.finite (mkRat 1 1000))
      (some (.finite (mkRat 10 1))) (some (.finite (mkRat 5 1))) "GTC") ∧
    "price" ∈ dkeys (buildOrderParams "BTCUSDT" "BUY" "LIMIT" (.finite (mkRat 1 1000))
      (some (.finite (mkRat 10 1))) none "GTC") ∧
    dkeys (buildOrderParams "BTCUSDT" "BUY" "STOP_MARKET" (.finite (mkRat 1 1000))
      (some (.finite (mkRat 10 1))) (some (.finite (mkRat 5 1))) "GTC") =
      ["symbol", "side", "type", "quantity", "stopPrice"] := by
  refine ⟨by decide, by decide, by decide, by decide⟩

end TradingBot
